import Mathlib

/-!
Shallow embedding of the PyCheckout pricing engine
(`PyCheckout/checkout.py`, default table from
`PyCheckout/terminal_checkout.py`) together with theorems settling the
specification claims.  Python integers are modelled by `Int` and raised
exceptions by `Except`.  The numeric scalar of the engine is `Int`:
every price and quantity in the repository's configuration, tests and
claims is a Python `int`, on which Python's arithmetic coincides exactly
with `Int` arithmetic.  A JSON float value is kept as an opaque `Rat`
payload: its type tag decides every check the code performs on it, and
no claim lets a float value reach the engine's arithmetic.
-/

namespace PyCheckout

/-- Classification of the Python exception raised by a failed `float(x)`
cast: `ValueError` for a string that does not parse as a number,
`TypeError` for an argument that is neither a string nor a number. -/
inductive PyExc where
  | valueError : PyExc
  | typeError : PyExc
deriving DecidableEq

/-- Error kinds of the checkout engine.  Each constructor corresponds to a
raise site in `checkout.py` (all of them `ValueError` at runtime), named
after the specification's error taxonomy.  `malformedInput` carries the
underlying JSON parse error as its cause, mirroring
`raise ValueError("Invalid JSON") from ex`.  `uncaughtTypeError` models a
`TypeError` escaping a `try/except ValueError` block (e.g. `float(None)`
inside `ComboDealPriceModifier.__init__`). -/
inductive CheckoutError where
  | malformedInput (cause : String) : CheckoutError
  | invalidBasketShape : CheckoutError
  | invalidBasketItem : CheckoutError
  | invalidModifierConfig : CheckoutError
  | invalidPriceInput : CheckoutError
  | invalidQuantity : CheckoutError
  | unknownProduct (code : String) : CheckoutError
  | uncaughtTypeError : CheckoutError
deriving DecidableEq

/-- Python values that can arise from `json.loads` or be passed to the
engine's dynamically typed entry points. -/
inductive PyVal where
  | str (s : String) : PyVal
  | int (n : Int) : PyVal
  | float (q : Rat) : PyVal
  | bool (b : Bool) : PyVal
  | null : PyVal
  | list (l : List PyVal) : PyVal
  | dict (l : List (String × PyVal)) : PyVal

/-- Models Python `isinstance(v, int)`: true for `int` and for `bool`,
because `bool` is a subclass of `int` in Python. -/
def PyVal.isInt : PyVal → Bool
  | .int _ => true
  | .bool _ => true
  | _ => false

/-- Models Python `isinstance(v, str)`. -/
def PyVal.isStr : PyVal → Bool
  | .str _ => true
  | _ => false

/-- Models Python `isinstance(v, list)`. -/
def PyVal.isList : PyVal → Bool
  | .list _ => true
  | _ => false

/-- Numeric value of a Python value satisfying `isinstance(v, int)`
(`True` is `1`, `False` is `0`); `0` for other values, which never reach
an arithmetic use in the embedded code. -/
def PyVal.asInt : PyVal → Int
  | .int n => n
  | .bool b => if b then 1 else 0
  | _ => 0

/-- Value of a decimal digit list, most significant first. -/
def digitsVal (l : List Char) : Nat :=
  l.foldl (fun a c => a * 10 + (c.toNat - 48)) 0

/-- Python whitespace stripped by `float(s)` from its string argument. -/
def isPySpace (c : Char) : Bool :=
  [' ', '\t', '\n', '\r', '\x0b', '\x0c'].contains c

/-- Strips leading and trailing whitespace, as `float(s)` does. -/
def stripChars (l : List Char) : List Char :=
  ((l.dropWhile isPySpace).reverse.dropWhile isPySpace).reverse

/-- Models `float(s)` on a string: optional sign, digits with an optional
fractional part (the fragment of Python's float syntax relevant here);
`Option.none` models a `ValueError`. -/
def parseFloatString (s : String) : Option Rat :=
  let chars := stripChars s.toList
  let signRest : Rat × List Char :=
    match chars with
    | '-' :: r => (-1, r)
    | '+' :: r => (1, r)
    | r => (1, r)
  let intPart := signRest.2.takeWhile Char.isDigit
  let rest2 := signRest.2.dropWhile Char.isDigit
  match rest2 with
  | [] =>
    if intPart.isEmpty then Option.none
    else some (signRest.1 * (digitsVal intPart : Rat))
  | '.' :: fr =>
    let fracPart := fr.takeWhile Char.isDigit
    let rest3 := fr.dropWhile Char.isDigit
    if rest3.isEmpty && !(intPart.isEmpty && fracPart.isEmpty) then
      some (signRest.1 *
        ((digitsVal intPart : Rat) + (digitsVal fracPart : Rat) / ((10 : Rat) ^ fracPart.length)))
    else Option.none
  | _ => Option.none

/-- Models Python `float(x)`: numbers and booleans convert, strings parse
or raise `ValueError`, anything else raises `TypeError`. -/
def pyFloatCast : PyVal → Except PyExc Rat
  | .int n => .ok (n : Rat)
  | .float q => .ok q
  | .bool b => .ok (if b then 1 else 0)
  | .str s =>
    match parseFloatString s with
    | some q => .ok q
    | Option.none => .error .valueError
  | _ => .error .typeError

/-- The combo-deal price modifier: `per_amount` items for `combo_price`.
`combo_price` holds the integer value of the argument accepted by
`__init__` (for float or numeric-string arguments the Python code stores
the original object, outside the integer fragment modelled here; no claim
exercises such a price). -/
structure ComboDealPriceModifier where
  combo_price : Int
  per_amount : Int
deriving DecidableEq

/-- Models `ComboDealPriceModifier.__init__`: first `float(combo_price)`
inside `try/except ValueError` (a `TypeError` escapes uncaught), then the
assertion `isinstance(per_amount, int) and per_amount > 0` rewrapped as a
`ValueError` (`invalidModifierConfig`). -/
def mkComboDealPriceModifier (combo_price per_amount : PyVal) :
    Except CheckoutError ComboDealPriceModifier :=
  match pyFloatCast combo_price with
  | .error .valueError => .error .invalidModifierConfig
  | .error .typeError => .error .uncaughtTypeError
  | .ok _ =>
    if per_amount.isInt && decide (0 < per_amount.asInt) then
      .ok ⟨combo_price.asInt, per_amount.asInt⟩
    else .error .invalidModifierConfig

/-- Models `ComboDealPriceModifier.modified_price`: checks
`float(unit_price)` (uncaught `TypeError` for non-string non-numbers),
asserts `isinstance(quantity, int) and quantity >= 0`, then returns
`(quantity // per_amount) * combo_price + (quantity % per_amount) * unit_price`.
Python's `//` and `%` with a positive divisor coincide with `Int.ediv`
and `Int.emod`; the arithmetic uses the original `unit_price` object,
whose integer value `asInt` it is within the integer fragment. -/
def ComboDealPriceModifier.modified_price (m : ComboDealPriceModifier)
    (unit_price quantity : PyVal) : Except CheckoutError Int :=
  match pyFloatCast unit_price with
  | .error .valueError => .error .invalidPriceInput
  | .error .typeError => .error .uncaughtTypeError
  | .ok _ =>
    if quantity.isInt && decide (0 ≤ quantity.asInt) then
      .ok (Int.ediv quantity.asInt m.per_amount * m.combo_price
        + Int.emod quantity.asInt m.per_amount * unit_price.asInt)
    else .error .invalidQuantity

/-- A single product; its `id` is its name. -/
structure Product where
  name : String
deriving DecidableEq

/-- Models the `Product.id` property, which returns the name. -/
def Product.id (p : Product) : String := p.name

/-- The pricing information for a single product, including an optional
modifier.  The only modifier variant in the program is
`ComboDealPriceModifier`. -/
structure ProductPricing where
  product : Product
  unit_price : Int
  price_modifier : Option ComboDealPriceModifier
deriving DecidableEq

/-- A single item in a basket. -/
structure BasketItem where
  code : String
  quantity : Int
deriving DecidableEq

/-- Models `BasketItem` construction including the `__post_init__` check
that the quantity is not negative (a violation raises
`ValueError("Invalid Basket Item")`, the `invalidBasketItem` kind). -/
def mkBasketItem (code : String) (quantity : Int) : Except CheckoutError BasketItem :=
  if 0 ≤ quantity then .ok ⟨code, quantity⟩ else .error .invalidBasketItem

/-- Python dict lookup on a key/value list; duplicate keys keep the last
binding, as Python dicts do. -/
def dictGet (l : List (String × PyVal)) (k : String) : Option PyVal :=
  (l.reverse.find? (fun kv => kv.1 == k)).map (fun kv => kv.2)

/-- Models `PricingInfo.dict_to_basket_item` (which does not use `self`):
asserts that the keys `code` and `quantity` are present, `code` is a
string and `quantity` satisfies `isinstance(_, int)` (so a `bool` passes),
rewrapping a failure as a `ValueError` (`invalidBasketItem`), then builds
the `BasketItem`, whose own check rejects a negative quantity. -/
def dict_to_basket_item (item : List (String × PyVal)) : Except CheckoutError BasketItem :=
  match dictGet item "code", dictGet item "quantity" with
  | some c, some q =>
    match c with
    | .str code =>
      if q.isInt then mkBasketItem code q.asInt else .error .invalidBasketItem
    | _ => .error .invalidBasketItem
  | _, _ => .error .invalidBasketItem

/-- A pricing dataset: the internal map from product id to
`ProductPricing`, represented as a key/value list with unique keys in
insertion order, as a Python dict. -/
structure PricingInfo where
  product_pricings : List (String × ProductPricing)
deriving DecidableEq

/-- Lookup in the internal map (`self.product_pricings[code]`). -/
def PricingInfo.find (p : PricingInfo) (code : String) : Option ProductPricing :=
  (p.product_pricings.find? (fun kv => kv.1 == code)).map (fun kv => kv.2)

/-- Models Python dict assignment `m[k] = v`: overwrite in place when the
key is present, append otherwise. -/
def dictInsertPricing (m : List (String × ProductPricing)) (k : String)
    (v : ProductPricing) : List (String × ProductPricing) :=
  if m.any (fun kv => kv.1 == k) then
    m.map (fun kv => if kv.1 == k then (k, v) else kv)
  else m ++ [(k, v)]

/-- Models `PricingInfo.__init__` on a list of `ProductPricing`: the dict
comprehension keyed by `pricing.product.id`, built left to right so a
duplicate id overwrites the earlier entry. -/
def PricingInfo.ofList (pricings : List ProductPricing) : PricingInfo :=
  ⟨pricings.foldl (fun m pr => dictInsertPricing m pr.product.id pr) []⟩

/-- The cost computed by `calculate_item_cost` once the pricing has been
looked up: the modifier's price when a modifier is present, else
`quantity * unit_price`. -/
def pricingCost (pricing : ProductPricing) (quantity : Int) : Except CheckoutError Int :=
  match pricing.price_modifier with
  | some m => m.modified_price (.int pricing.unit_price) (.int quantity)
  | Option.none => .ok (quantity * pricing.unit_price)

/-- Models `PricingInfo.calculate_item_cost`: a missing code raises the
`unknownProduct` kind (a `KeyError` rewrapped as `ValueError`). -/
def PricingInfo.calculate_item_cost (p : PricingInfo) (item : BasketItem) :
    Except CheckoutError Int :=
  match p.find item.code with
  | Option.none => .error (.unknownProduct item.code)
  | some pricing => pricingCost pricing item.quantity

/-- An element of a basket list at runtime: either an actual `BasketItem`
object or any other Python value. -/
inductive PyObj where
  | item (it : BasketItem) : PyObj
  | val (v : PyVal) : PyObj

/-- Models `isinstance(e, BasketItem)`. -/
def PyObj.isItem : PyObj → Bool
  | .item _ => true
  | .val _ => false

/-- Models `isinstance(e, dict)`. -/
def PyObj.isDict : PyObj → Bool
  | .val (.dict _) => true
  | _ => false

/-- The underlying `BasketItem` of an element; the default is only ever
produced under the `all isItem` guard, where it is unreachable. -/
def PyObj.getItem : PyObj → BasketItem
  | .item it => it
  | .val _ => ⟨"", 0⟩

/-- The underlying key/value list of a dict element; the default is only
ever produced under the `all isDict` guard, where it is unreachable. -/
def PyObj.getDict : PyObj → List (String × PyVal)
  | .val (.dict d) => d
  | _ => []

/-- The summation loop of `calculate_total_cost`: `total_cost = 0` then
`total_cost += calculate_item_cost(item)` over the basket, the first
raised error aborting the whole call. -/
def sumCosts (p : PricingInfo) : List BasketItem → Except CheckoutError Int
  | [] => .ok 0
  | it :: rest =>
    match p.calculate_item_cost it with
    | .error e => .error e
    | .ok c =>
      match sumCosts p rest with
      | .error e => .error e
      | .ok r => .ok (c + r)

/-- The list comprehension
`[self.dict_to_basket_item(item) for item in basket]`, evaluated left to
right with the first raised error aborting the call. -/
def convertDicts : List PyObj → Except CheckoutError (List BasketItem)
  | [] => .ok []
  | e :: rest =>
    match dict_to_basket_item e.getDict with
    | .error err => .error err
    | .ok it =>
      match convertDicts rest with
      | .error err => .error err
      | .ok its => .ok (it :: its)

/-- The branch of `calculate_total_cost` taken once the basket is known
to be a Python list: all-`BasketItem` lists are summed directly,
all-`dict` lists are converted first, anything else raises the
`invalidBasketShape` kind.  Note `all` is true on the empty list, so an
empty basket takes the first branch. -/
def PricingInfo.totalFromList (p : PricingInfo) (l : List PyObj) :
    Except CheckoutError Int :=
  if l.all PyObj.isItem then
    sumCosts p (l.map PyObj.getItem)
  else if l.all PyObj.isDict then
    match convertDicts l with
    | .error e => .error e
    | .ok items => sumCosts p items
  else .error .invalidBasketShape

/-- The shape dispatch of `calculate_total_cost` applied to the result of
`json.loads`: a parsed list is processed, any other parsed value raises
the `invalidBasketShape` kind. -/
def PricingInfo.totalFromParsed (p : PricingInfo) (v : PyVal) :
    Except CheckoutError Int :=
  match v with
  | .list l => p.totalFromList (l.map PyObj.val)
  | _ => .error .invalidBasketShape

/-- Skips JSON whitespace. -/
def skipWs : List Char → List Char
  | c :: r => if [' ', '\t', '\n', '\r'].contains c then skipWs r else c :: r
  | [] => []

/-- Translation table of the JSON escapes handled here. -/
def escTable : List (Char × Char) :=
  [('n', '\n'), ('t', '\t'), ('r', '\r'), ('b', Char.ofNat 8),
    ('f', Char.ofNat 12), ('"', '"'), ('\\', '\\'), ('/', '/')]

/-- Translation of a JSON escape character. -/
def escChar (c : Char) : Option Char :=
  escTable.lookup c

/-- Parses the body of a JSON string after the opening quote, returning
the characters and the remaining input. -/
def parseStringBody : List Char → Except String (List Char × List Char)
  | [] => .error "Unterminated string"
  | c :: r =>
    if c == '"' then .ok ([], r)
    else if c == '\\' then
      match r with
      | [] => .error "Unterminated string"
      | e :: r2 =>
        match escChar e with
        | Option.none => .error "Invalid escape"
        | some ec =>
          match parseStringBody r2 with
          | .error msg => .error msg
          | .ok (cs, rest) => .ok (ec :: cs, rest)
    else
      match parseStringBody r with
      | .error msg => .error msg
      | .ok (cs, rest) => .ok (c :: cs, rest)

/-- Parses a JSON number: optional minus, digits, optional fraction,
optional exponent.  An integer literal yields a Python `int`, otherwise a
`float`, as `json.loads` does. -/
def parseNumber (l : List Char) : Except String (PyVal × List Char) :=
  let signRest : Bool × List Char :=
    match l with
    | '-' :: r => (true, r)
    | r => (false, r)
  let ip := signRest.2.takeWhile Char.isDigit
  let l2 := signRest.2.dropWhile Char.isDigit
  if ip.isEmpty then .error "Expecting value"
  else
    let fracRest : Bool × List Char × List Char :=
      match l2 with
      | '.' :: r => (true, r.takeWhile Char.isDigit, r.dropWhile Char.isDigit)
      | r => (false, [], r)
    if fracRest.1 && fracRest.2.1.isEmpty then .error "Expecting value"
    else
      let expRest : Bool × Bool × List Char × List Char :=
        match fracRest.2.2 with
        | 'e' :: '-' :: r => (true, true, r.takeWhile Char.isDigit, r.dropWhile Char.isDigit)
        | 'e' :: '+' :: r => (true, false, r.takeWhile Char.isDigit, r.dropWhile Char.isDigit)
        | 'e' :: r => (true, false, r.takeWhile Char.isDigit, r.dropWhile Char.isDigit)
        | 'E' :: '-' :: r => (true, true, r.takeWhile Char.isDigit, r.dropWhile Char.isDigit)
        | 'E' :: '+' :: r => (true, false, r.takeWhile Char.isDigit, r.dropWhile Char.isDigit)
        | 'E' :: r => (true, false, r.takeWhile Char.isDigit, r.dropWhile Char.isDigit)
        | r => (false, false, [], r)
      if expRest.1 && expRest.2.2.1.isEmpty then .error "Expecting value"
      else if fracRest.1 || expRest.1 then
        let mantissa : Rat :=
          (digitsVal ip : Rat) + (digitsVal fracRest.2.1 : Rat) / ((10 : Rat) ^ fracRest.2.1.length)
        let signed : Rat := if signRest.1 then -mantissa else mantissa
        let ev : Int :=
          if expRest.2.1 then -(digitsVal expRest.2.2.1 : Int) else (digitsVal expRest.2.2.1 : Int)
        .ok (.float (signed * (10 : Rat) ^ ev), expRest.2.2.2)
      else
        .ok (.int (if signRest.1 then -(digitsVal ip : Int) else (digitsVal ip : Int)), l2)

mutual

/-- Parses one JSON value; the fuel bounds the recursion depth and is
chosen large enough for any actual input by `parseJson`. -/
def parseValue : Nat → List Char → Except String (PyVal × List Char)
  | 0, _ => .error "Too deeply nested"
  | fuel + 1, l =>
    match skipWs l with
    | [] => .error "Expecting value"
    | c :: r =>
      if c == '"' then
        match parseStringBody r with
        | .error m => .error m
        | .ok (cs, rest) => .ok (.str (String.mk cs), rest)
      else if c == '[' then
        match skipWs r with
        | ']' :: rest => .ok (.list [], rest)
        | r2 =>
          match parseArrayItems fuel r2 with
          | .error m => .error m
          | .ok (vs, rest) => .ok (.list vs, rest)
      else if c == '\x7b' then
        match skipWs r with
        | '\x7d' :: rest => .ok (.dict [], rest)
        | r2 =>
          match parseObjectItems fuel r2 with
          | .error m => .error m
          | .ok (kvs, rest) => .ok (.dict kvs, rest)
      else if c == 't' then
        match r with
        | 'r' :: 'u' :: 'e' :: rest => .ok (.bool true, rest)
        | _ => .error "Expecting value"
      else if c == 'f' then
        match r with
        | 'a' :: 'l' :: 's' :: 'e' :: rest => .ok (.bool false, rest)
        | _ => .error "Expecting value"
      else if c == 'n' then
        match r with
        | 'u' :: 'l' :: 'l' :: rest => .ok (.null, rest)
        | _ => .error "Expecting value"
      else parseNumber (c :: r)

/-- Parses the comma-separated items of a non-empty JSON array up to the
closing bracket. -/
def parseArrayItems : Nat → List Char → Except String (List PyVal × List Char)
  | 0, _ => .error "Too deeply nested"
  | fuel + 1, l =>
    match parseValue fuel l with
    | .error m => .error m
    | .ok (v, rest) =>
      match skipWs rest with
      | ',' :: r2 =>
        match parseArrayItems fuel r2 with
        | .error m => .error m
        | .ok (vs, rest2) => .ok (v :: vs, rest2)
      | ']' :: r2 => .ok ([v], r2)
      | _ => .error "Expecting delimiter"

/-- Parses the comma-separated pairs of a non-empty JSON object up to the
closing brace. -/
def parseObjectItems : Nat → List Char → Except String (List (String × PyVal) × List Char)
  | 0, _ => .error "Too deeply nested"
  | fuel + 1, l =>
    match skipWs l with
    | '"' :: r =>
      match parseStringBody r with
      | .error m => .error m
      | .ok (kcs, rest) =>
        match skipWs rest with
        | ':' :: r2 =>
          match parseValue fuel r2 with
          | .error m => .error m
          | .ok (v, rest2) =>
            match skipWs rest2 with
            | ',' :: r3 =>
              match parseObjectItems fuel r3 with
              | .error m => .error m
              | .ok (kvs, rest3) => .ok ((String.mk kcs, v) :: kvs, rest3)
            | '\x7d' :: r3 => .ok ([(String.mk kcs, v)], r3)
            | _ => .error "Expecting delimiter"
        | _ => .error "Expecting colon"
    | _ => .error "Expecting property name"

end

/-- Models `json.loads` over the JSON fragment used by this repository
(`\uXXXX` escapes and leading-zero rejection are not modelled); the
`Except` error is the decode error that `calculate_total_cost` wraps as
its `malformedInput` cause. -/
def parseJson (s : String) : Except String PyVal :=
  match parseValue (s.length + 2) s.toList with
  | .error m => .error m
  | .ok (v, rest) =>
    match skipWs rest with
    | [] => .ok v
    | _ => .error "Extra data"

/-- The basket argument of `calculate_total_cost` as dispatched by its
`isinstance` checks: a string, a Python list, or any other value. -/
inductive BasketInput where
  | text (s : String) : BasketInput
  | objList (l : List PyObj) : BasketInput
  | value (v : PyVal) : BasketInput

/-- The string branch of `calculate_total_cost`: `json.loads`, a decode
failure rewrapped as `ValueError("Invalid JSON")` (`malformedInput`),
then the shape dispatch on the parsed value. -/
def PricingInfo.totalFromText (p : PricingInfo) (s : String) :
    Except CheckoutError Int :=
  match parseJson s with
  | .error e => .error (.malformedInput e)
  | .ok v => p.totalFromParsed v

/-- Models `PricingInfo.calculate_total_cost` over the three runtime
shapes of its argument. -/
def PricingInfo.calculate_total_cost (p : PricingInfo) (basket : BasketInput) :
    Except CheckoutError Int :=
  match basket with
  | .text s => p.totalFromText s
  | .objList l => p.totalFromList l
  | .value (.str s) => p.totalFromText s
  | .value (.list l) => p.totalFromList (l.map PyObj.val)
  | .value _ => .error .invalidBasketShape

/-- The pricing table built in `terminal_checkout.py`: A at 50 with a
3-for-140 combo, B at 35 with a 2-for-60 combo, C at 25, D at 12. -/
def pricing_info : PricingInfo :=
  PricingInfo.ofList
    [ ⟨⟨"A"⟩, 50, some ⟨140, 3⟩⟩,
      ⟨⟨"B"⟩, 35, some ⟨60, 2⟩⟩,
      ⟨⟨"C"⟩, 25, Option.none⟩,
      ⟨⟨"D"⟩, 12, Option.none⟩ ]

/-- The basket of the specification's 284 example, as JSON text. -/
def basket_json : String :=
  "[\x7b\"code\":\"A\",\"quantity\":3\x7d,\x7b\"code\":\"B\",\"quantity\":3\x7d,\x7b\"code\":\"C\",\"quantity\":1\x7d,\x7b\"code\":\"D\",\"quantity\":2\x7d]"

/-- The same basket as a list of already-constructed `BasketItem`s. -/
def basket_items : List BasketItem :=
  [⟨"A", 3⟩, ⟨"B", 3⟩, ⟨"C", 1⟩, ⟨"D", 2⟩]

/-- The same basket as a Python list of key/value maps. -/
def basket_dicts : List PyObj :=
  [ .val (.dict [("code", .str "A"), ("quantity", .int 3)]),
    .val (.dict [("code", .str "B"), ("quantity", .int 3)]),
    .val (.dict [("code", .str "C"), ("quantity", .int 1)]),
    .val (.dict [("code", .str "D"), ("quantity", .int 2)]) ]

deriving instance DecidableEq for Except

/-- Spec-side definition for the refinement claim: the key/value map
corresponding to a basket item, as the specification's basket JSON format
describes it (`code` then `quantity`). -/
def encodeItem (it : BasketItem) : PyVal :=
  .dict [("code", .str it.code), ("quantity", .int it.quantity)]

/-- Models the test-suite mutation
`product_pricings[code].price_modifier.combo_price += delta` on the
shared pricing objects: the table with that one in-place update
applied. -/
def PricingInfo.bumpComboPrice (p : PricingInfo) (code : String) (delta : Int) :
    PricingInfo :=
  ⟨p.product_pricings.map (fun kv =>
    if kv.1 == code then
      (kv.1, ⟨kv.2.product, kv.2.unit_price,
        kv.2.price_modifier.map (fun m => ⟨m.combo_price + delta, m.per_amount⟩)⟩)
    else kv)⟩

/-- C1: for every non-negative integer quantity `q` and numeric unit
price `u`, `modified_price u q` equals
`(q // per_amount) * combo_price + (q % per_amount) * u` (Python `//`
and `%` being `Int.ediv` and `Int.emod` for a positive divisor); for
`0 ≤ q < per_amount` it equals `u * q`; and with `per_amount = 3`,
`combo_price = 140`, `u = 50` it returns 50, 140 and 190 at `q` = 1, 3
and 4. -/
theorem combo_modified_price_formula (cp u pa q : Int)
    (_hpa : 0 < pa) (hq : 0 ≤ q) :
    ComboDealPriceModifier.modified_price ⟨cp, pa⟩ (.int u) (.int q)
      = .ok (Int.ediv q pa * cp + Int.emod q pa * u)
    ∧ (q < pa →
      ComboDealPriceModifier.modified_price ⟨cp, pa⟩ (.int u) (.int q) = .ok (u * q))
    ∧ ComboDealPriceModifier.modified_price ⟨140, 3⟩ (.int 50) (.int 1) = .ok 50
    ∧ ComboDealPriceModifier.modified_price ⟨140, 3⟩ (.int 50) (.int 3) = .ok 140
    ∧ ComboDealPriceModifier.modified_price ⟨140, 3⟩ (.int 50) (.int 4) = .ok 190 := by
  have h1 : ComboDealPriceModifier.modified_price ⟨cp, pa⟩ (.int u) (.int q)
      = .ok (Int.ediv q pa * cp + Int.emod q pa * u) := by
    simp [ComboDealPriceModifier.modified_price, pyFloatCast, PyVal.isInt, PyVal.asInt, hq]
  have hd : q < pa → Int.ediv q pa = 0 := Int.ediv_eq_zero_of_lt hq
  have hm : q < pa → Int.emod q pa = q := Int.emod_eq_of_lt hq
  refine ⟨h1, fun hlt => ?_, by decide, by decide, by decide⟩
  rw [h1, hd hlt, hm hlt]
  exact congrArg Except.ok (by ring)

/-- Witness for `combo_modified_price_formula` at `cp = 140`, `pa = 3`,
`u = 50`, `q = 1`. -/
theorem combo_modified_price_formula_witness :
    ComboDealPriceModifier.modified_price ⟨140, 3⟩ (.int 50) (.int 1)
      = .ok (Int.ediv 1 3 * 140 + Int.emod 1 3 * 50) :=
  (combo_modified_price_formula 140 50 3 1 (by decide) (by decide)).1

/-- C2: with the default pricing table, the basket
A×3, B×3, C×1, D×2 totals 284, whether supplied as JSON text or as the
equivalent list of key/value maps. -/
theorem total_cost_284 :
    pricing_info.calculate_total_cost (.text basket_json) = .ok 284
    ∧ pricing_info.calculate_total_cost (.objList basket_dicts) = .ok 284 :=
  ⟨rfl, rfl⟩

/-- C9: for every pricing table, the empty basket (the empty list, or
the JSON text `[]`) totals 0. -/
theorem total_cost_empty (p : PricingInfo) :
    p.calculate_total_cost (.objList []) = .ok 0
    ∧ p.calculate_total_cost (.text "[]") = .ok 0 :=
  ⟨rfl, rfl⟩

/-- C8: raising A's combo price by 10 between calls changes the
subsequent total of the 284 basket to 294, while the total computed from
the table before the mutation is 284 (already-returned results are
values and unaffected). -/
theorem mutation_changes_total :
    pricing_info.calculate_total_cost (.objList basket_dicts) = .ok 284
    ∧ (pricing_info.bumpComboPrice "A" 10).calculate_total_cost (.objList basket_dicts)
        = .ok 294 :=
  ⟨rfl, rfl⟩

/-- C4: `calculate_item_cost` raises the `unknownProduct` kind exactly
when the item's code is absent from the pricing table; when a pricing is
found, the result is the modifier's `modified_price(unit_price, quantity)`
if a modifier is present, and `quantity * unit_price` otherwise. -/
theorem calculate_item_cost_lookup (p : PricingInfo) (item : BasketItem) :
    (p.calculate_item_cost item = .error (.unknownProduct item.code)
      ↔ p.find item.code = Option.none)
    ∧ (∀ pricing m, p.find item.code = some pricing →
        pricing.price_modifier = some m →
        p.calculate_item_cost item
          = m.modified_price (.int pricing.unit_price) (.int item.quantity))
    ∧ (∀ pricing, p.find item.code = some pricing →
        pricing.price_modifier = Option.none →
        p.calculate_item_cost item = .ok (item.quantity * pricing.unit_price)) := by
  refine ⟨⟨fun h => ?_, fun h => ?_⟩, fun pricing m hf hm => ?_, fun pricing hf hm => ?_⟩
  · by_contra hne
    obtain ⟨pricing, hp⟩ := Option.ne_none_iff_exists'.mp hne
    simp only [PricingInfo.calculate_item_cost, hp, pricingCost.eq_def] at h
    cases hmod : pricing.price_modifier with
    | none => simp [hmod] at h
    | some m =>
      simp only [hmod, ComboDealPriceModifier.modified_price, pyFloatCast] at h
      split at h
      · exact Except.noConfusion h
      · simp at h
  · simp [PricingInfo.calculate_item_cost, h]
  · simp [PricingInfo.calculate_item_cost, hf, pricingCost.eq_def, hm]
  · simp [PricingInfo.calculate_item_cost, hf, pricingCost.eq_def, hm]

/-- Witness for `calculate_item_cost_lookup` at the default table and the
item A×4. -/
theorem calculate_item_cost_lookup_witness :
    pricing_info.calculate_item_cost ⟨"A", 4⟩
      = ComboDealPriceModifier.modified_price ⟨140, 3⟩ (.int 50) (.int 4) :=
  (calculate_item_cost_lookup pricing_info ⟨"A", 4⟩).2.1
    ⟨⟨"A"⟩, 50, some ⟨140, 3⟩⟩ ⟨140, 3⟩ (by decide) (by decide)

/-- C5: a basket given as text that fails to parse raises the
`malformedInput` kind carrying the parse error as cause; a parsed JSON
value or a directly supplied value that is not a list raises the
`invalidBasketShape` kind; a list whose elements are neither uniformly
`BasketItem` nor uniformly dicts raises the `invalidBasketShape` kind. -/
theorem total_cost_malformed (p : PricingInfo) :
    (∀ s e, parseJson s = .error e →
      p.calculate_total_cost (.text s) = .error (.malformedInput e))
    ∧ (∀ s v, parseJson s = .ok v → v.isList = false →
      p.calculate_total_cost (.text s) = .error .invalidBasketShape)
    ∧ (∀ v, v.isList = false → v.isStr = false →
      p.calculate_total_cost (.value v) = .error .invalidBasketShape)
    ∧ (∀ l, l.all PyObj.isItem = false → l.all PyObj.isDict = false →
      p.calculate_total_cost (.objList l) = .error .invalidBasketShape) := by
  refine ⟨fun s e h => ?_, fun s v h hv => ?_, fun v hl hs => ?_, fun l hi hd => ?_⟩
  · rw [PricingInfo.calculate_total_cost, PricingInfo.totalFromText, h]
  · rw [PricingInfo.calculate_total_cost, PricingInfo.totalFromText, h]
    cases v with
    | list l => exact absurd hv (by simp [PyVal.isList])
    | _ => rfl
  · cases v with
    | list l => exact absurd hl (by simp [PyVal.isList])
    | str s => exact absurd hs (by simp [PyVal.isStr])
    | _ => rfl
  · rw [PricingInfo.calculate_total_cost, PricingInfo.totalFromList, if_neg, if_neg]
    · simp [hd]
    · simp [hi]

/-- Witness for `total_cost_malformed` at concrete malformed inputs. -/
theorem total_cost_malformed_witness :
    pricing_info.calculate_total_cost (.text "not json")
      = .error (.malformedInput "Expecting value")
    ∧ pricing_info.calculate_total_cost (.text "5") = .error .invalidBasketShape
    ∧ pricing_info.calculate_total_cost (.value (.int 5)) = .error .invalidBasketShape
    ∧ pricing_info.calculate_total_cost (.objList [.val (.int 5), .item ⟨"A", 1⟩])
        = .error .invalidBasketShape :=
  ⟨(total_cost_malformed pricing_info).1 "not json" "Expecting value" rfl,
    (total_cost_malformed pricing_info).2.1 "5" (.int 5) rfl rfl,
    (total_cost_malformed pricing_info).2.2.1 (.int 5) rfl rfl,
    (total_cost_malformed pricing_info).2.2.2 [.val (.int 5), .item ⟨"A", 1⟩] rfl rfl⟩

/-- Helper: `dict_to_basket_item` succeeds when the map has a text
`code`, a `quantity` passing `isinstance(_, int)` and a non-negative
integer value. -/
theorem dict_to_basket_item_ok_of (d : List (String × PyVal)) (code : String)
    (qv : PyVal) (hc : dictGet d "code" = some (.str code))
    (hq : dictGet d "quantity" = some qv) (hint : qv.isInt = true)
    (hpos : 0 ≤ qv.asInt) :
    dict_to_basket_item d = .ok ⟨code, qv.asInt⟩ := by
  simp only [dict_to_basket_item, hc, hq, hint, if_true, mkBasketItem, if_pos hpos]

/-- Helper: `dict_to_basket_item` raises the `invalidBasketItem` kind
when no text code with an accepted non-negative quantity exists. -/
theorem dict_to_basket_item_err_of (d : List (String × PyVal))
    (hbad : ¬ ∃ code qv, dictGet d "code" = some (.str code)
      ∧ dictGet d "quantity" = some qv ∧ qv.isInt = true ∧ 0 ≤ qv.asInt) :
    dict_to_basket_item d = .error .invalidBasketItem := by
  cases hc : dictGet d "code" with
  | none => simp [dict_to_basket_item, hc]
  | some c =>
    cases hq : dictGet d "quantity" with
    | none => cases c <;> simp [dict_to_basket_item, hc, hq]
    | some qv =>
      cases c with
      | str code =>
        simp only [dict_to_basket_item, hc, hq]
        by_cases hint : qv.isInt = true
        · have hneg : ¬ 0 ≤ qv.asInt := fun hpos =>
            hbad ⟨code, qv, hc, hq, hint, hpos⟩
          simp only [hint, if_true, mkBasketItem, if_neg hneg]
        · simp only [if_neg hint]
      | _ => simp [dict_to_basket_item, hc, hq]

/-- C6 counterexample: a map whose `quantity` is the boolean `true` is
accepted by `dict_to_basket_item` and yields quantity 1, because Python's
`bool` is a subclass of `int` and passes `isinstance(_, int)`; the claim
that a boolean quantity raises the `invalidBasketItem` kind is false. -/
theorem dict_to_basket_item_bool_accepted :
    dict_to_basket_item [("code", .str "A"), ("quantity", .bool true)] = .ok ⟨"A", 1⟩
    ∧ dict_to_basket_item [("code", .str "A"), ("quantity", .bool true)]
        ≠ .error .invalidBasketItem := by
  refine ⟨rfl, fun h => ?_⟩
  rw [show dict_to_basket_item [("code", .str "A"), ("quantity", .bool true)]
      = .ok ⟨"A", 1⟩ from rfl] at h
  exact Except.noConfusion h

/-- C6 (amended): the map-to-BasketItem conversion raises the
`invalidBasketItem` kind exactly when the map is missing the key `code`
or the key `quantity`, its `code` value is not text, its `quantity` value
fails `isinstance(_, int)` (a float or other non-integer fails, while a
boolean passes, `bool` being a subclass of `int` with value 0 or 1), or
its integer value is negative; otherwise it returns the `BasketItem` with
that code and integer value. -/
theorem dict_to_basket_item_spec (d : List (String × PyVal)) :
    (dict_to_basket_item d = .error .invalidBasketItem ↔
      ¬ ∃ code qv, dictGet d "code" = some (.str code)
        ∧ dictGet d "quantity" = some qv ∧ qv.isInt = true ∧ 0 ≤ qv.asInt)
    ∧ ∀ code qv, dictGet d "code" = some (.str code) →
        dictGet d "quantity" = some qv → qv.isInt = true → 0 ≤ qv.asInt →
        dict_to_basket_item d = .ok ⟨code, qv.asInt⟩ := by
  refine ⟨⟨fun herr hgood => ?_, fun hbad => dict_to_basket_item_err_of d hbad⟩,
    fun code qv hc hq hint hpos => dict_to_basket_item_ok_of d code qv hc hq hint hpos⟩
  obtain ⟨code, qv, hc, hq, hint, hpos⟩ := hgood
  rw [dict_to_basket_item_ok_of d code qv hc hq hint hpos] at herr
  exact Except.noConfusion herr

/-- Witness for `dict_to_basket_item_spec` at a concrete valid map. -/
theorem dict_to_basket_item_spec_witness :
    dict_to_basket_item [("code", .str "C"), ("quantity", .int 2)] = .ok ⟨"C", 2⟩ :=
  (dict_to_basket_item_spec [("code", .str "C"), ("quantity", .int 2)]).2 "C" (.int 2)
    rfl rfl rfl (by decide)

/-- C7 counterexample: constructing a `ComboDealPriceModifier` with the
non-numeric `combo_price` `None` fails with an uncaught `TypeError`
(Python's `float(None)` raises `TypeError`, which the code's
`except ValueError` handler does not catch), not with the
`invalidModifierConfig` kind the claim requires for every non-numeric
`combo_price`. -/
theorem mkComboDeal_null_typeerror :
    mkComboDealPriceModifier PyVal.null (.int 3) = .error .uncaughtTypeError
    ∧ mkComboDealPriceModifier PyVal.null (.int 3) ≠ .error .invalidModifierConfig := by
  refine ⟨rfl, fun h => ?_⟩
  rw [show mkComboDealPriceModifier PyVal.null (.int 3)
      = .error .uncaughtTypeError from rfl] at h
  simp at h

/-- C7 (amended): construction fails with the `invalidModifierConfig`
kind for every `per_amount` that is zero, negative, non-integer or of a
non-integral type (`isinstance(_, int)` false; a boolean passes, being a
subclass of `int`), and for every non-numeric text `combo_price`; a
non-numeric `combo_price` that is not text (e.g. `None` or a list)
instead escapes as an uncaught `TypeError`; and `modified_price` fails
with the `invalidQuantity` kind for every call-time quantity that is
negative or fractional (and any other value failing
`isinstance(_, int) and _ >= 0`). -/
theorem combo_validation_spec :
    (∀ cp pa : PyVal, (∃ x, pyFloatCast cp = .ok x) →
      ¬(pa.isInt = true ∧ 0 < pa.asInt) →
      mkComboDealPriceModifier cp pa = .error .invalidModifierConfig)
    ∧ (∀ cp pa : PyVal, pyFloatCast cp = .error .valueError →
      mkComboDealPriceModifier cp pa = .error .invalidModifierConfig)
    ∧ (∀ cp pa : PyVal, pyFloatCast cp = .error .typeError →
      mkComboDealPriceModifier cp pa = .error .uncaughtTypeError)
    ∧ (∀ (m : ComboDealPriceModifier) (u qv : PyVal), (∃ x, pyFloatCast u = .ok x) →
      ¬(qv.isInt = true ∧ 0 ≤ qv.asInt) →
      m.modified_price u qv = .error .invalidQuantity) := by
  refine ⟨fun cp pa hok hbad => ?_, fun cp pa herr => ?_, fun cp pa herr => ?_,
    fun m u qv hok hbad => ?_⟩
  · obtain ⟨x, hx⟩ := hok
    have hcond : ¬(pa.isInt && decide (0 < pa.asInt)) = true := by
      simp only [Bool.and_eq_true, decide_eq_true_eq]
      exact hbad
    simp only [mkComboDealPriceModifier, hx, if_neg hcond]
  · simp only [mkComboDealPriceModifier, herr]
  · simp only [mkComboDealPriceModifier, herr]
  · obtain ⟨x, hx⟩ := hok
    have hcond : ¬(qv.isInt && decide (0 ≤ qv.asInt)) = true := by
      simp only [Bool.and_eq_true, decide_eq_true_eq]
      exact hbad
    simp only [ComboDealPriceModifier.modified_price, hx, if_neg hcond]

/-- Witness for `combo_validation_spec` at concrete invalid arguments. -/
theorem combo_validation_spec_witness :
    mkComboDealPriceModifier (.int 5) (.int 0) = .error .invalidModifierConfig
    ∧ mkComboDealPriceModifier (.str "abc") (.int 3) = .error .invalidModifierConfig
    ∧ mkComboDealPriceModifier (.list []) (.int 3) = .error .uncaughtTypeError
    ∧ ComboDealPriceModifier.modified_price ⟨140, 3⟩ (.int 5) (.int (-5))
        = .error .invalidQuantity :=
  ⟨combo_validation_spec.1 (.int 5) (.int 0) ⟨5, rfl⟩ (by decide),
    combo_validation_spec.2.1 (.str "abc") (.int 3) (by decide),
    combo_validation_spec.2.2.1 (.list []) (.int 3) rfl,
    combo_validation_spec.2.2.2 ⟨140, 3⟩ (.int 5) (.int (-5)) ⟨5, rfl⟩ (by decide)⟩

/-- Helper: looking up `c` after the Python dict assignment `m[k] = v`
yields `v` when `c` is `k`, and the previous binding otherwise. -/
theorem dictInsert_find (m : List (String × ProductPricing)) (k : String)
    (v : ProductPricing) (c : String) :
    ((dictInsertPricing m k v).find? (fun kv => kv.1 == c)).map (fun kv => kv.2)
      = if k == c then some v
        else (m.find? (fun kv => kv.1 == c)).map (fun kv => kv.2) := by
  rw [dictInsertPricing]
  by_cases hany : m.any (fun kv => kv.1 == k)
  · rw [if_pos hany, List.find?_map]
    by_cases hkc : (k == c) = true
    · have hkc' : k = c := eq_of_beq hkc
      subst hkc'
      rw [if_pos hkc]
      have hpred : ((fun kv : String × ProductPricing => kv.1 == k)
            ∘ (fun kv => if kv.1 == k then (k, v) else kv))
          = fun kv : String × ProductPricing => kv.1 == k := by
        funext kv
        by_cases h : (kv.1 == k) = true
        · rw [Function.comp_apply, if_pos h]
          simp [h]
        · rw [Function.comp_apply, if_neg h]
      rw [hpred]
      obtain ⟨kv₀, hmem, hp⟩ := List.any_eq_true.mp hany
      have hsome : (m.find? (fun kv : String × ProductPricing => kv.1 == k)).isSome :=
        List.find?_isSome.mpr ⟨kv₀, hmem, hp⟩
      obtain ⟨kv₁, h1⟩ := Option.isSome_iff_exists.mp hsome
      have hp1 : (kv₁.1 == k) = true := by simpa using List.find?_some h1
      rw [h1]
      simp [eq_of_beq hp1]
    · rw [if_neg hkc]
      have hpred : ((fun kv : String × ProductPricing => kv.1 == c)
            ∘ (fun kv => if kv.1 == k then (k, v) else kv))
          = fun kv : String × ProductPricing => kv.1 == c := by
        funext kv
        by_cases h : (kv.1 == k) = true
        · rw [Function.comp_apply, if_pos h, eq_of_beq h]
        · rw [Function.comp_apply, if_neg h]
      rw [hpred]
      cases h0 : m.find? (fun kv => kv.1 == c) with
      | none => rfl
      | some kv₀ =>
        have hpc : (kv₀.1 == c) = true := by simpa using List.find?_some h0
        have hnk : ¬(kv₀.1 == k) = true := by
          intro hb
          have hkeq : k = c := (eq_of_beq hb).symm.trans (eq_of_beq hpc)
          exact hkc (by rw [hkeq]; exact beq_self_eq_true c)
        have hne : ¬ kv₀.1 = k := fun h => hnk (by rw [h]; exact beq_self_eq_true k)
        simp [hne]
  · rw [if_neg hany, List.find?_append]
    by_cases hkc : (k == c) = true
    · have hkc' : k = c := eq_of_beq hkc
      subst hkc'
      have hnone : m.find? (fun kv => kv.1 == k) = Option.none := by
        cases h0 : m.find? (fun kv => kv.1 == k) with
        | none => rfl
        | some kv₀ =>
          have hpc : (kv₀.1 == k) = true := by simpa using List.find?_some h0
          exact absurd (List.any_eq_true.mpr
            ⟨kv₀, List.mem_of_find?_eq_some h0, hpc⟩) hany
      rw [hnone, if_pos hkc]
      simp [List.find?, hkc]
    · rw [if_neg hkc]
      have hsing : ([(k, v)].find? (fun kv => kv.1 == c)) = Option.none := by
        simp [List.find?, hkc]
      rw [hsing]
      cases h0 : m.find? (fun kv => kv.1 == c) <;> rfl

/-- Helper: folding Python dict assignments over a list of pricings makes
lookup return the value of the last matching pricing, falling back to the
initial map. -/
theorem foldl_insert_find (l : List ProductPricing)
    (m : List (String × ProductPricing)) (k : String) :
    ((l.foldl (fun acc pr => dictInsertPricing acc pr.product.id pr) m).find?
        (fun kv => kv.1 == k)).map (fun kv => kv.2)
      = (l.reverse.find? (fun pr => pr.product.id == k)).or
          ((m.find? (fun kv => kv.1 == k)).map (fun kv => kv.2)) := by
  induction l generalizing m with
  | nil => simp
  | cons pr l ih =>
    rw [List.foldl_cons, ih, List.reverse_cons, List.find?_append, dictInsert_find]
    cases h0 : l.reverse.find? (fun pr => pr.product.id == k) with
    | some pr₁ => simp
    | none =>
      simp only [Option.none_or]
      by_cases hpk : (pr.product.id == k) = true
      · simp [List.find?, hpk]
      · simp [List.find?, hpk]

/-- C10: constructing `PricingInfo` from a list with duplicate product
ids keeps, for each id, the entry appearing last in the list, and every
subsequent `calculate_item_cost` lookup for that id uses that entry. -/
theorem ofList_last_write_wins (l : List ProductPricing) (k : String) :
    (PricingInfo.ofList l).find k
      = l.reverse.find? (fun pr => pr.product.id == k)
    ∧ ∀ q pricing, l.reverse.find? (fun pr => pr.product.id == k) = some pricing →
        (PricingInfo.ofList l).calculate_item_cost ⟨k, q⟩ = pricingCost pricing q := by
  have h1 : (PricingInfo.ofList l).find k
      = l.reverse.find? (fun pr => pr.product.id == k) := by
    rw [PricingInfo.find, PricingInfo.ofList, foldl_insert_find]
    simp
  refine ⟨h1, fun q pricing hlast => ?_⟩
  rw [PricingInfo.calculate_item_cost]
  simp only [h1, hlast]

/-- Witness for `ofList_last_write_wins` on a two-entry duplicate list. -/
theorem ofList_last_write_wins_witness :
    (PricingInfo.ofList [⟨⟨"A"⟩, 50, Option.none⟩, ⟨⟨"A"⟩, 60, Option.none⟩]).calculate_item_cost
        ⟨"A", 2⟩
      = pricingCost ⟨⟨"A"⟩, 60, Option.none⟩ 2 :=
  (ofList_last_write_wins [⟨⟨"A"⟩, 50, Option.none⟩, ⟨⟨"A"⟩, 60, Option.none⟩] "A").2
    2 ⟨⟨"A"⟩, 60, Option.none⟩ (by decide)

/-- Helper: on a Python-list basket, `calculate_total_cost` is its list
branch. -/
theorem calculate_total_cost_objList (p : PricingInfo) (l : List PyObj) :
    p.calculate_total_cost (.objList l) = p.totalFromList l := rfl

/-- Helper: a basket of `BasketItem` objects is summed directly. -/
theorem totalFromList_items (p : PricingInfo) (l : List BasketItem) :
    p.totalFromList (l.map PyObj.item) = sumCosts p l := by
  rw [PricingInfo.totalFromList]
  have hall : (l.map PyObj.item).all PyObj.isItem = true := by
    simp [List.all_map, PyObj.isItem]
  rw [if_pos hall]
  have hmap : (l.map PyObj.item).map PyObj.getItem = l := by
    rw [List.map_map]
    exact List.map_id'' (fun it => rfl) l
  rw [hmap]

/-- Helper: converting the key/value maps that encode a basket of valid
items returns exactly those items. -/
theorem convertDicts_encode (l : List BasketItem) (h : ∀ it ∈ l, 0 ≤ it.quantity) :
    convertDicts (l.map (fun it => PyObj.val (encodeItem it))) = .ok l := by
  induction l with
  | nil => rfl
  | cons it rest ih =>
    have hhd : dict_to_basket_item (PyObj.getDict (PyObj.val (encodeItem it))) = .ok it := by
      have hok := dict_to_basket_item_ok_of
        [("code", .str it.code), ("quantity", .int it.quantity)] it.code (.int it.quantity)
        rfl rfl rfl (h it (List.mem_cons_self it rest))
      simpa [encodeItem, PyObj.getDict, PyVal.asInt] using hok
    rw [List.map_cons]
    simp only [convertDicts, hhd, ih (fun x hx => h x (List.mem_cons_of_mem it hx))]

/-- C3: for every pricing table and every basket of valid items,
`calculate_total_cost` returns the same result whether the basket is
supplied as JSON text with that logical content, as the corresponding
list of key/value maps, or as the list of `BasketItem` objects. -/
theorem total_cost_input_shapes (p : PricingInfo) (l : List BasketItem) (s : String)
    (hq : ∀ it ∈ l, 0 ≤ it.quantity)
    (hs : parseJson s = .ok (.list (l.map encodeItem))) :
    p.calculate_total_cost (.text s)
      = p.calculate_total_cost (.objList (l.map PyObj.item))
    ∧ p.calculate_total_cost (.objList (l.map (fun it => PyObj.val (encodeItem it))))
      = p.calculate_total_cost (.objList (l.map PyObj.item)) := by
  have hdicts : p.totalFromList (l.map (fun it => PyObj.val (encodeItem it)))
      = sumCosts p l := by
    cases l with
    | nil => rfl
    | cons it rest =>
      rw [PricingInfo.totalFromList]
      have hni : ¬ ((it :: rest).map (fun x => PyObj.val (encodeItem x))).all
          PyObj.isItem = true := by
        simp [PyObj.isItem]
      rw [if_neg hni]
      have hd : ((it :: rest).map (fun x => PyObj.val (encodeItem x))).all
          PyObj.isDict = true := by
        simp [List.all_map, PyObj.isDict, encodeItem]
      rw [if_pos hd, convertDicts_encode _ hq]
  have hitems : p.totalFromList (l.map PyObj.item) = sumCosts p l :=
    totalFromList_items p l
  constructor
  · show p.totalFromText s = _
    rw [PricingInfo.totalFromText, hs]
    simp only [PricingInfo.totalFromParsed]
    rw [List.map_map, calculate_total_cost_objList, hitems]
    exact hdicts
  · rw [calculate_total_cost_objList, calculate_total_cost_objList, hdicts, hitems]

/-- Witness for `total_cost_input_shapes` at the default table and the
284 basket. -/
theorem total_cost_input_shapes_witness :
    pricing_info.calculate_total_cost (.text basket_json)
      = pricing_info.calculate_total_cost (.objList (basket_items.map PyObj.item)) :=
  (total_cost_input_shapes pricing_info basket_items basket_json (by decide) rfl).1

end PyCheckout
